import Mathlib

/-!
Verification of the paylink payment-link service (src/main.py) against its
natural-language specification.

The embedding is a shallow one: the SQLite table `payment_links` is a
`List PaymentLink` in insertion (rowid) order; each FastAPI endpoint becomes a
pure function from the store (plus the request data, the current time, and the
outcome of any gateway call) to a result value and the updated store.  Time is
measured in whole seconds as an integer; `datetime.now()` becomes an explicit
`now : Int` argument.  The amount column is declared `Float` in the source, so
stored amounts are IEEE-754 binary64 values; they are embedded as the exact
rational value of the double, with `fl` the round-to-nearest-even rounding of a
rational to binary64 (normal range) and `pyInt` the truncation toward zero that
Python `int()` performs.
-/

namespace Paylink

/-- The status column of a payment link: the source stores one of the strings
"pending", "paid", "expired", "cancelled". -/
inductive Status
  | pending
  | paid
  | expired
  | cancelled
deriving DecidableEq

/-- String stored in the status column for each `Status` value. -/
def statusStr : Status → String
  | .pending => "pending"
  | .paid => "paid"
  | .expired => "expired"
  | .cancelled => "cancelled"

/-- One row of the `payment_links` table (class `PaymentLink` in src/main.py).
`amount` holds the exact rational value of the stored binary64 double. -/
structure PaymentLink where
  id : Nat
  token : String
  order_id : String
  email : String
  amount : Rat
  created_at : Int
  status : Status
deriving DecidableEq

/-- The expiration window: `timedelta(minutes=5)` in the source, in seconds. -/
def EXPIRATION_WINDOW : Int := 300

/-! ### Binary64 arithmetic model

The source stores `amount` in a SQLAlchemy `Float` column (binary64) after
`float(data.amount)`, and the checkout endpoint sends
`int(payment_link.amount * 100)` to the gateway.  The following functions give
the exact rational semantics of those operations for values in the normal
range of binary64 (amounts of money are far inside it). -/

/-- Fuel-driven floor of the base-2 logarithm of a natural number; the fuel of
128 covers every number below 2^128, far beyond the range needed here.  The
fuel-based recursion keeps the function reducible by the kernel. -/
def log2fuel : Nat → Nat → Nat
  | 0, _ => 0
  | fuel + 1, n => if 2 ≤ n then log2fuel fuel (n / 2) + 1 else 0

/-- Floor of the base-2 logarithm of a natural number. -/
def nlog2 (n : Nat) : Nat := log2fuel 128 n

/-- Integer power of two as a rational, for possibly negative exponents. -/
def pow2 (e : Int) : Rat :=
  if 0 ≤ e then ((2 ^ e.toNat : Nat) : Rat) else 1 / ((2 ^ (-e).toNat : Nat) : Rat)

/-- Rounding of a rational to the nearest integer, ties to even (the rounding
mode of IEEE-754 binary64 arithmetic). -/
def rne (q : Rat) : Int :=
  if q - ⌊q⌋ < 1 / 2 then ⌊q⌋
  else if q - ⌊q⌋ > 1 / 2 then ⌊q⌋ + 1
  else if ⌊q⌋ % 2 = 0 then ⌊q⌋ else ⌊q⌋ + 1

/-- Floor of the base-2 logarithm of a positive rational. -/
def floorLog2 (q : Rat) : Int :=
  if 1 ≤ q then (nlog2 ⌊q⌋.toNat : Int)
  else
    let r := 1 / q
    let k := nlog2 ⌊r⌋.toNat
    if pow2 k < r then -(k + 1 : Nat) else -(k : Nat)

/-- Rounding of a positive rational to the nearest binary64 value (normal
range): the significand is rounded to 53 bits, ties to even. -/
def flPos (q : Rat) : Rat :=
  (rne (q * pow2 (52 - floorLog2 q)) : Rat) * pow2 (floorLog2 q - 52)

/-- Rounding of a rational to the nearest binary64 value (normal range).  This
is the value semantics of Python `float(x)` and of a double multiplication
result for values of ordinary magnitude. -/
def fl (q : Rat) : Rat :=
  if q = 0 then 0 else if 0 < q then flPos q else -flPos (-q)

/-- Truncation of a rational toward zero: the semantics of Python `int()`
applied to a float. -/
def pyInt (q : Rat) : Int := Int.tdiv q.num (q.den : Int)

/-! ### Store queries and updates -/

/-- Query `db.query(PaymentLink).filter(PaymentLink.token == token).first()`:
first row in rowid order whose token matches. -/
def findByToken (db : List PaymentLink) (tok : String) : Option PaymentLink :=
  db.find? (fun r => decide (r.token = tok))

/-- The filter used by the creation endpoint: rows for this order id whose
status is "pending" or "paid". -/
def activePred (oid : String) (r : PaymentLink) : Bool :=
  decide (r.order_id = oid) &&
    (decide (r.status = Status.pending) || decide (r.status = Status.paid))

/-- Query of the creation endpoint: first row for the order id with status in
("pending", "paid"). -/
def findActiveByOrderId (db : List PaymentLink) (oid : String) : Option PaymentLink :=
  db.find? (activePred oid)

/-- All rows for the order id with status in ("pending", "paid"). -/
def activeFor (db : List PaymentLink) (oid : String) : List PaymentLink :=
  db.filter (activePred oid)

/-- All rows for the order id with status "pending". -/
def pendingFor (db : List PaymentLink) (oid : String) : List PaymentLink :=
  db.filter (fun r => decide (r.order_id = oid) && decide (r.status = Status.pending))

/-- Effect of mutating the status of the row returned by a `.first()` token
query and committing: the first row with this token gets the new status. -/
def setStatusByToken : List PaymentLink → String → Status → List PaymentLink
  | [], _, _ => []
  | r :: rest, tok, s =>
    if r.token = tok then { r with status := s } :: rest
    else r :: setStatusByToken rest tok s

/-- Next autoincrement primary key. -/
def nextId (db : List PaymentLink) : Nat :=
  db.foldr (fun r m => max r.id m) 0 + 1

/-- Payment URL built by the creation endpoint. -/
def payUrl (tok : String) : String := "http://localhost:8000/pay/" ++ tok

/-! ### POST /create_payment_link -/

/-- Result of the creation endpoint, keeping only the behaviourally distinct
responses of the source. -/
inductive CreateResult
  | alreadyPaid
  | reuse (payment_url : String) (remaining : Int)
  | created (payment_url : String)
deriving DecidableEq

/-- Row inserted by the creation endpoint: the request amount (an exact
decimal) passes through `float(data.amount)` before being stored. -/
def mkPaymentLink (id : Nat) (tok oid em : String) (amount : Rat) (now : Int) :
    PaymentLink :=
  { id := id, token := tok, order_id := oid, email := em, amount := fl amount
    created_at := now, status := Status.pending }

/-- Endpoint `create_payment_link` (src/main.py lines 174-229).  The freshly
minted uuid token and the current time are explicit arguments. -/
def create_payment_link (db : List PaymentLink) (oid em : String) (amount : Rat)
    (tok : String) (now : Int) : CreateResult × List PaymentLink :=
  match findActiveByOrderId db oid with
  | some pl =>
    if pl.status = Status.paid then (.alreadyPaid, db)
    else if pl.status = Status.pending ∧ pl.created_at + EXPIRATION_WINDOW > now then
      (.reuse (payUrl pl.token) (pl.created_at + EXPIRATION_WINDOW - now), db)
    else
      (.created (payUrl tok), db ++ [mkPaymentLink (nextId db) tok oid em amount now])
  | none =>
    (.created (payUrl tok), db ++ [mkPaymentLink (nextId db) tok oid em amount now])

/-! ### GET /pay/{token} -/

/-- View returned by the pay page. -/
inductive PageView
  | notFound
  | paidView
  | expiredView
  | formView (amount : Rat) (order_id email tok : String)
deriving DecidableEq

/-- Endpoint `pay_page` (src/main.py lines 239-278): lazy expiry write-back
followed by view selection on the resulting status. -/
def pay_page (db : List PaymentLink) (tok : String) (now : Int) :
    PageView × List PaymentLink :=
  match findByToken db tok with
  | none => (.notFound, db)
  | some pl =>
    if now > pl.created_at + EXPIRATION_WINDOW ∧
        pl.status ≠ Status.paid ∧ pl.status ≠ Status.expired then
      (.expiredView, setStatusByToken db tok Status.expired)
    else if pl.status = Status.paid then (.paidView, db)
    else if pl.status = Status.expired then (.expiredView, db)
    else (.formView pl.amount pl.order_id pl.email pl.token, db)

/-! ### POST /create_checkout_session -/

/-- Content of the gateway session-creation request built by the source. -/
structure SessionRequest where
  unit_amount : Int
  product_name : String
  customer_email : String
  success_url : String
  cancel_url : String
  metadata_token : String
deriving DecidableEq

/-- Stripe session request built at src/main.py lines 295-312: the minor-unit
amount is `int(payment_link.amount * 100)` evaluated in binary64. -/
def buildSessionRequest (pl : PaymentLink) : SessionRequest :=
  { unit_amount := pyInt (fl (pl.amount * 100))
    product_name := "Order " ++ pl.order_id
    customer_email := pl.email
    success_url := "http://localhost:8000/payment_success?session_id=\x7bCHECKOUT_SESSION_ID\x7d&token=" ++ pl.token
    cancel_url := "http://localhost:8000/payment_cancelled?token=" ++ pl.token
    metadata_token := pl.token }

/-- Result of the checkout endpoint. -/
inductive CheckoutResult
  | notFound
  | linkExpired
  | alreadyCompleted
  | gatewayError
  | redirect (url : String)
deriving DecidableEq

/-- Endpoint `create_checkout_session` (src/main.py lines 281-325).  The
gateway is a function from the built request to `none` (remote failure) or
`some url` (the session redirect URL). -/
def create_checkout_session (db : List PaymentLink) (tok : String) (now : Int)
    (gateway : SessionRequest → Option String) : CheckoutResult × List PaymentLink :=
  match findByToken db tok with
  | none => (.notFound, db)
  | some pl =>
    if now > pl.created_at + EXPIRATION_WINDOW then (.linkExpired, db)
    else if pl.status = Status.paid then (.alreadyCompleted, db)
    else
      match gateway (buildSessionRequest pl) with
      | none => (.gatewayError, db)
      | some url => (.redirect url, db)

/-! ### GET /payment_success -/

/-- Retrieved gateway session: its payment status string and the value of
`metadata.get("payment_token")` (absent keys give `none`). -/
structure GatewaySession where
  payment_status : String
  payment_token : Option String
deriving DecidableEq

/-- Result of the success endpoint. -/
inductive SuccessResult
  | notFound
  | gatewayError
  | notCompleted
  | tokenMismatch
  | successView
deriving DecidableEq

/-- Endpoint `payment_success` (src/main.py lines 328-371).  The retrieval
outcome is `none` for a gateway failure, `some s` for a retrieved session. -/
def payment_success (db : List PaymentLink) (tok : String)
    (retrieved : Option GatewaySession) : SuccessResult × List PaymentLink :=
  match findByToken db tok with
  | none => (.notFound, db)
  | some pl =>
    match retrieved with
    | none => (.gatewayError, db)
    | some s =>
      if s.payment_status ≠ "paid" then (.notCompleted, db)
      else if s.payment_token ≠ some tok then (.tokenMismatch, db)
      else if pl.status ≠ Status.paid then
        (.successView, setStatusByToken db tok Status.paid)
      else (.successView, db)

/-! ### GET /payment_cancelled -/

/-- Result of the cancellation endpoint. -/
inductive CancelResult
  | notFound
  | cancelledView
deriving DecidableEq

/-- Endpoint `payment_cancelled` (src/main.py lines 374-395): unconditionally
sets the status of the record to "cancelled". -/
def payment_cancelled (db : List PaymentLink) (tok : String) :
    CancelResult × List PaymentLink :=
  match findByToken db tok with
  | none => (.notFound, db)
  | some _ => (.cancelledView, setStatusByToken db tok Status.cancelled)

/-! ### DELETE /cleanup_expired -/

/-- Filter of the cleanup endpoint: pending rows created strictly before
`now - EXPIRATION_WINDOW`. -/
def stalePred (now : Int) (r : PaymentLink) : Bool :=
  decide (r.created_at < now - EXPIRATION_WINDOW) && decide (r.status = Status.pending)

/-- Endpoint `cleanup_expired` (src/main.py lines 499-521): marks every stale
pending row "expired" and returns the number of rows so transitioned. -/
def cleanup_expired (db : List PaymentLink) (now : Int) : Nat × List PaymentLink :=
  ((db.filter (stalePred now)).length,
    db.map (fun r => if stalePred now r then { r with status := Status.expired } else r))

/-! ### GET /payments and GET /payments/export filters -/

/-- Boolean test that `pat` occurs at the start of `s`. -/
def prefixAt : List Char → List Char → Bool
  | [], _ => true
  | _ :: _, [] => false
  | a :: as, b :: bs => a == b && prefixAt as bs

/-- Boolean test that `pat` occurs contiguously somewhere inside `s`. -/
def containsSeq : List Char → List Char → Bool
  | pat, [] => prefixAt pat []
  | pat, b :: bs => prefixAt pat (b :: bs) || containsSeq pat bs

/-- ASCII lowercasing of one character, the case folding SQLite LIKE applies. -/
def lowerChar (c : Char) : Char :=
  if 65 ≤ c.toNat && c.toNat ≤ 90 then Char.ofNat (c.toNat + 32) else c

/-- Semantics of the SQL `LIKE "%pat%"` filter built by the listing endpoints,
for filter strings without LIKE metacharacters: contiguous-substring match,
ASCII-case-insensitive (the SQLite default collation for LIKE). -/
def likeMatch (pat s : String) : Bool :=
  containsSeq (pat.toList.map lowerChar) (s.toList.map lowerChar)

/-- One optional filter stage of the listing query: a missing or empty filter
string (falsy in Python) leaves the query unchanged. -/
def stageFilter (db : List PaymentLink) (f : Option String)
    (p : String → PaymentLink → Bool) : List PaymentLink :=
  match f with
  | none => db
  | some s => if s = "" then db else db.filter (p s)

/-- The filter pipeline shared by `list_payments` (src/main.py lines 408-414)
and `export_payments_csv` (lines 457-463): LIKE with wildcards on both sides
for order id and email, string equality for status. -/
def filterPayments (db : List PaymentLink) (oidF emF stF : Option String) :
    List PaymentLink :=
  stageFilter
    (stageFilter
      (stageFilter db oidF (fun s r => likeMatch s r.order_id))
      emF (fun s r => likeMatch s r.email))
    stF (fun s r => decide (statusStr r.status = s))

/-! ### Derived notions used by the claims -/

/-- The `isUsable` policy predicate of the spec: a found active record is
reused rather than replaced when it is paid, or pending and not yet past its
expiration window. -/
def isUsable (pl : PaymentLink) (now : Int) : Prop :=
  pl.status = Status.paid ∨
    (pl.status = Status.pending ∧ now < pl.created_at + EXPIRATION_WINDOW)

instance (pl : PaymentLink) (now : Int) : Decidable (isUsable pl now) := by
  unfold isUsable; infer_instance

/-- One store-mutating request to the service, with every source of
nondeterminism (time, fresh token, gateway outcome) recorded in the
constructor. -/
inductive Op
  | createOp (oid em : String) (amount : Rat) (tok : String) (now : Int)
  | page (tok : String) (now : Int)
  | checkout (tok : String) (now : Int) (gateway : SessionRequest → Option String)
  | success (tok : String) (retrieved : Option GatewaySession)
  | cancel (tok : String)
  | sweep (now : Int)

/-- Store after one operation. -/
def stepStore : Op → List PaymentLink → List PaymentLink
  | .createOp oid em amount tok now, db => (create_payment_link db oid em amount tok now).2
  | .page tok now, db => (pay_page db tok now).2
  | .checkout tok now gateway, db => (create_checkout_session db tok now gateway).2
  | .success tok retrieved, db => (payment_success db tok retrieved).2
  | .cancel tok, db => (payment_cancelled db tok).2
  | .sweep now, db => (cleanup_expired db now).2

/-- The status rewrites each operation can actually apply to a stored record,
read off the source: the pay page writes "expired" over any status that is
neither "paid" nor "expired" once the window has elapsed, the success handler
writes "paid" over any status that is not already "paid", cancellation writes
"cancelled" unconditionally, and the sweep writes "expired" over stale pending
records only. -/
def allowedStatusChange : Op → PaymentLink → PaymentLink → Prop
  | .page _ now, r, r2 =>
    r2.status = Status.expired ∧ r.status ≠ Status.paid ∧
      r.status ≠ Status.expired ∧ now > r.created_at + EXPIRATION_WINDOW
  | .success _ _, r, r2 => r2.status = Status.paid ∧ r.status ≠ Status.paid
  | .cancel _, _, r2 => r2.status = Status.cancelled
  | .sweep now, r, r2 =>
    r2.status = Status.expired ∧ r.status = Status.pending ∧
      r.created_at < now - EXPIRATION_WINDOW
  | .createOp _ _ _ _ _, _, _ => False
  | .checkout _ _ _, _, _ => False


/-- Pointwise agreement of every field except status. -/
def sameCore (r r2 : PaymentLink) : Prop :=
  r2.id = r.id ∧ r2.token = r.token ∧ r2.order_id = r.order_id ∧
    r2.email = r.email ∧ r2.amount = r.amount ∧ r2.created_at = r.created_at

/-! ### Concrete store rows used by witnesses and counterexamples -/

/-- A fresh pending row for order "A1". -/
def c1record : PaymentLink :=
  { id := 1, token := "tok1", order_id := "A1", email := "x@y.com", amount := 10
    created_at := 0, status := Status.pending }

/-- A paid row created at time 0. -/
def c3paidOld : PaymentLink :=
  { id := 1, token := "tokC", order_id := "A4", email := "x@y.com", amount := 10
    created_at := 0, status := Status.paid }

/-- A cancelled row created at time 0. -/
def c3cancelled : PaymentLink :=
  { id := 1, token := "tokF", order_id := "A7", email := "x@y.com", amount := 10
    created_at := 0, status := Status.cancelled }

/-- A pending row reachable by token "tokA". -/
def c4record : PaymentLink :=
  { id := 1, token := "tokA", order_id := "A1", email := "x@y.com", amount := 10
    created_at := 0, status := Status.pending }

/-- A paid row reachable by token "tokP". -/
def c5paid : PaymentLink :=
  { id := 1, token := "tokP", order_id := "A2", email := "x@y.com", amount := 10
    created_at := 0, status := Status.paid }

/-- A pending row reachable by token "tokW". -/
def c5wit : PaymentLink :=
  { id := 1, token := "tokW", order_id := "A3", email := "x@y.com", amount := 10
    created_at := 0, status := Status.pending }

/-- A cancelled row created at time 0, reachable by token "tokD". -/
def c7cancelledOld : PaymentLink :=
  { id := 1, token := "tokD", order_id := "A5", email := "x@y.com", amount := 10
    created_at := 0, status := Status.cancelled }

/-- A fresh pending row reachable by token "tokG". -/
def c7fresh : PaymentLink :=
  { id := 1, token := "tokG", order_id := "A8", email := "x@y.com", amount := 10
    created_at := 0, status := Status.pending }

/-- A pending row created six minutes before time 360. -/
def c8stale : PaymentLink :=
  { id := 1, token := "tokH", order_id := "A9", email := "x@y.com", amount := 10
    created_at := 0, status := Status.pending }

/-- A row with order id "A1". -/
def c10recA1 : PaymentLink :=
  { id := 1, token := "u1", order_id := "A1", email := "a@y.com", amount := 10
    created_at := 0, status := Status.pending }

/-- A row with order id "BA". -/
def c10recBA : PaymentLink :=
  { id := 2, token := "u2", order_id := "BA", email := "b@y.com", amount := 10
    created_at := 0, status := Status.paid }

/-- A row with order id "C". -/
def c10recC : PaymentLink :=
  { id := 3, token := "u3", order_id := "C", email := "c@y.com", amount := 10
    created_at := 0, status := Status.pending }

/-! ### Helper lemmas -/

theorem find?_eq_filter_head? {p : PaymentLink → Bool} :
    ∀ l : List PaymentLink, l.find? p = (l.filter p).head?
  | [] => rfl
  | a :: l => by
    by_cases h : p a
    · rw [List.find?_cons_of_pos _ h, List.filter_cons_of_pos h]
      rfl
    · rw [List.find?_cons_of_neg _ h, List.filter_cons_of_neg h, find?_eq_filter_head? l]

theorem setStatusByToken_getElem? (db : List PaymentLink) (tok : String) (s : Status)
    (i : Nat) :
    (setStatusByToken db tok s)[i]? = db[i]? ∨
      (∃ r, db[i]? = some r ∧
        (setStatusByToken db tok s)[i]? = some { r with status := s } ∧
        findByToken db tok = some r) := by
  induction db generalizing i with
  | nil => left; rfl
  | cons r rest ih =>
    by_cases h : r.token = tok
    · cases i with
      | zero =>
        right
        exact ⟨r, by simp, by simp [setStatusByToken, h],
          by simp [findByToken, List.find?_cons, h]⟩
      | succ j =>
        left
        simp [setStatusByToken, h]
    · cases i with
      | zero => left; simp [setStatusByToken, h]
      | succ j =>
        rcases ih j with h1 | ⟨r0, h1, h2, h3⟩
        · left; simpa [setStatusByToken, h] using h1
        · right
          exact ⟨r0, by simpa using h1, by simpa [setStatusByToken, h] using h2,
            by simpa [findByToken, List.find?_cons, h] using h3⟩

theorem checkout_store_eq (db : List PaymentLink) (tok : String) (now : Int)
    (gateway : SessionRequest → Option String) :
    (create_checkout_session db tok now gateway).2 = db := by
  unfold create_checkout_session
  split
  · rfl
  · split
    · rfl
    · split
      · rfl
      · split <;> rfl

theorem sameCore_self (r : PaymentLink) : sameCore r r :=
  ⟨rfl, rfl, rfl, rfl, rfl, rfl⟩

theorem sameCore_set (r : PaymentLink) (s : Status) :
    sameCore r { r with status := s } :=
  ⟨rfl, rfl, rfl, rfl, rfl, rfl⟩

theorem setStatus_case (db : List PaymentLink) (tok : String) (s : Status) (i : Nat)
    (r pl : PaymentLink) (h : db[i]? = some r) (hf : findByToken db tok = some pl) :
    ∃ r2, (setStatusByToken db tok s)[i]? = some r2 ∧ sameCore r r2 ∧
      (r2.status = r.status ∨ (r2.status = s ∧ r = pl)) := by
  rcases setStatusByToken_getElem? db tok s i with h1 | ⟨r0, h1, h2, h3⟩
  · exact ⟨r, h1.trans h, sameCore_self r, Or.inl rfl⟩
  · have hr0 : r0 = r := Option.some.inj (h1.symm.trans h)
    subst hr0
    have hrpl : r0 = pl := Option.some.inj (h3.symm.trans hf)
    exact ⟨{ r0 with status := s }, h2, sameCore_set r0 s, Or.inr ⟨rfl, hrpl⟩⟩

theorem getElem?_lt_length {l : List PaymentLink} {i : Nat} {r : PaymentLink}
    (h : l[i]? = some r) : i < l.length := by
  rcases List.getElem?_eq_some.mp h with ⟨hi, _⟩
  exact hi

theorem pendingFor_eq_filter_active (db : List PaymentLink) (oid : String) :
    pendingFor db oid =
      (activeFor db oid).filter (fun r => decide (r.status = Status.pending)) := by
  unfold pendingFor activeFor
  rw [List.filter_filter]
  apply List.filter_congr
  intro r _
  by_cases h1 : r.order_id = oid <;> by_cases h2 : r.status = Status.pending <;>
    simp [activePred, h1, h2]

theorem stageFilter_mem (db : List PaymentLink) (f : Option String)
    (p : String → PaymentLink → Bool) (r : PaymentLink) :
    r ∈ stageFilter db f p ↔
      (r ∈ db ∧ ∀ s, f = some s → s ≠ "" → p s r = true) := by
  cases f with
  | none => simp [stageFilter]
  | some s =>
    by_cases hs : s = ""
    · simp [stageFilter, hs]
    · rw [stageFilter, if_neg hs]
      constructor
      · intro h
        rcases List.mem_filter.mp h with ⟨h1, h2⟩
        refine ⟨h1, fun s0 hs0 _ => ?_⟩
        cases Option.some.inj hs0
        exact h2
      · rintro ⟨h1, h2⟩
        exact List.mem_filter.mpr ⟨h1, h2 s rfl hs⟩

/-! ### Claim C1 -/

/-- C1: the creation endpoint is idempotent per order.  When the store holds
exactly one active row for the order id and that row is pending inside its
window, creation (called once, and called again on the unchanged store)
returns that row with its remaining time-to-expiry and leaves the store with
exactly that one pending row; when the active row is paid it reports already
paid without writing; a fresh pending row is inserted only when no usable
active row is found. -/
theorem create_payment_link_idempotent (db : List PaymentLink) (oid em : String)
    (amount : Rat) (tok tok2 : String) (now : Int) :
    (∀ pl, activeFor db oid = [pl] → pl.status = Status.pending →
      pl.created_at + EXPIRATION_WINDOW > now →
      create_payment_link db oid em amount tok now =
        (.reuse (payUrl pl.token) (pl.created_at + EXPIRATION_WINDOW - now), db) ∧
      create_payment_link db oid em amount tok2 now =
        (.reuse (payUrl pl.token) (pl.created_at + EXPIRATION_WINDOW - now), db) ∧
      pendingFor db oid = [pl]) ∧
    (∀ pl, activeFor db oid = [pl] → pl.status = Status.paid →
      create_payment_link db oid em amount tok now = (.alreadyPaid, db)) ∧
    ((∀ pl ∈ activeFor db oid, ¬ isUsable pl now) →
      create_payment_link db oid em amount tok now =
        (.created (payUrl tok), db ++ [mkPaymentLink (nextId db) tok oid em amount now])) := by
  refine ⟨?_, ?_, ?_⟩
  · intro pl hact hpend hfresh
    have hfind : findActiveByOrderId db oid = some pl := by
      unfold findActiveByOrderId
      rw [find?_eq_filter_head?]
      show (activeFor db oid).head? = some pl
      rw [hact]; rfl
    refine ⟨?_, ?_, ?_⟩
    · simp [create_payment_link, hfind, hpend, hfresh]
    · simp [create_payment_link, hfind, hpend, hfresh]
    · rw [pendingFor_eq_filter_active, hact]
      simp [hpend]
  · intro pl hact hpaid
    have hfind : findActiveByOrderId db oid = some pl := by
      unfold findActiveByOrderId
      rw [find?_eq_filter_head?]
      show (activeFor db oid).head? = some pl
      rw [hact]; rfl
    simp [create_payment_link, hfind, hpaid]
  · intro hnone
    cases hfind : findActiveByOrderId db oid with
    | none => simp [create_payment_link, hfind]
    | some pl0 =>
      have hmem : pl0 ∈ db := List.mem_of_find?_eq_some hfind
      have hpred : activePred oid pl0 = true := List.find?_some hfind
      have hnu := hnone pl0 (List.mem_filter.mpr ⟨hmem, hpred⟩)
      have hnotpaid : pl0.status ≠ Status.paid := fun h => hnu (Or.inl h)
      have hpending : pl0.status = Status.pending := by
        unfold activePred at hpred
        simp only [Bool.and_eq_true, Bool.or_eq_true, decide_eq_true_eq] at hpred
        rcases hpred.2 with h | h
        · exact h
        · exact absurd h hnotpaid
      have hstale : ¬ now < pl0.created_at + EXPIRATION_WINDOW :=
        fun hf => hnu (Or.inr ⟨hpending, hf⟩)
      simp [create_payment_link, hfind, hnotpaid, hpending, hstale]

/-- Witness for C1 at a concrete store: one fresh pending row for order "A1"
is reused with 200 seconds remaining, and that is the only pending row. -/
theorem create_payment_link_idempotent_witness :
    create_payment_link [c1record] "A1" "x@y.com" 10 "t2" 100 =
      (CreateResult.reuse (payUrl "tok1") 200, [c1record]) ∧
    pendingFor [c1record] "A1" = [c1record] := by
  have h := (create_payment_link_idempotent [c1record] "A1" "x@y.com" 10 "t2" "t3" 100).1
    c1record (by decide) (by decide) (by decide)
  exact ⟨h.1.trans (by decide), h.2.2⟩

/-! ### Claim C2 -/

unseal Rat.mul Rat.add Rat.sub Rat.inv in
/-- C2: creating a link for an order whose earlier pending link has passed its
window leaves two rows with persisted status pending for that order id, so the
at-most-one-active-row invariant fails on the code. -/
theorem create_leaves_duplicate_pending :
    pendingFor
      ((create_payment_link (create_payment_link [] "A1" "x@y.com" 10 "t1" 0).2
        "A1" "x@y.com" 10 "t2" 301).2) "A1" =
      [mkPaymentLink 1 "t1" "A1" "x@y.com" 10 0,
       mkPaymentLink 2 "t2" "A1" "x@y.com" 10 301] := by
  decide

/-! ### Claim C3 -/

/-- C3 counterexample: a paid record past its window fails the checkout time
check with the expired error, not the already-completed error, so failing with
AlreadyCompleted iff the status is paid does not hold. -/
theorem checkout_paid_after_window_counterex :
    c3paidOld.status = Status.paid ∧
    (create_checkout_session [c3paidOld] "tokC" 301 (fun _ => none)).1 =
      CheckoutResult.linkExpired ∧
    (create_checkout_session [c3paidOld] "tokC" 301 (fun _ => none)).1 ≠
      CheckoutResult.alreadyCompleted := by
  decide

/-- C3 (amended): for a record reachable by token, checkout fails with the
expired error iff the window has elapsed, regardless of status; inside the
window it fails with the already-completed error iff the status is paid; and
inside the window with status other than paid (cancelled included) it reaches
the gateway and returns its redirect or propagates its failure. -/
theorem create_checkout_session_characterized (db : List PaymentLink) (tok : String)
    (now : Int) (gateway : SessionRequest → Option String) (pl : PaymentLink)
    (h : findByToken db tok = some pl) :
    ((create_checkout_session db tok now gateway).1 = CheckoutResult.linkExpired ↔
      now > pl.created_at + EXPIRATION_WINDOW) ∧
    ((create_checkout_session db tok now gateway).1 = CheckoutResult.alreadyCompleted ↔
      ¬ now > pl.created_at + EXPIRATION_WINDOW ∧ pl.status = Status.paid) ∧
    (∀ url, (create_checkout_session db tok now gateway).1 = CheckoutResult.redirect url ↔
      ¬ now > pl.created_at + EXPIRATION_WINDOW ∧ pl.status ≠ Status.paid ∧
        gateway (buildSessionRequest pl) = some url) ∧
    ((create_checkout_session db tok now gateway).1 = CheckoutResult.gatewayError ↔
      ¬ now > pl.created_at + EXPIRATION_WINDOW ∧ pl.status ≠ Status.paid ∧
        gateway (buildSessionRequest pl) = none) := by
  by_cases h1 : now > pl.created_at + EXPIRATION_WINDOW
  · simp [create_checkout_session, h, h1]
  · by_cases h2 : pl.status = Status.paid
    · simp [create_checkout_session, h, h1, h2]
    · cases hg : gateway (buildSessionRequest pl) with
      | none => simp [create_checkout_session, h, h1, h2, hg]
      | some url => simp [create_checkout_session, h, h1, h2, hg]

/-- Witness for the checkout characterization: a cancelled record inside its
window reaches the gateway and the endpoint returns the redirect. -/
theorem create_checkout_session_characterized_witness :
    (create_checkout_session [c3cancelled] "tokF" 100 (fun _ => some "u")).1 =
      CheckoutResult.redirect "u" := by
  have h := (create_checkout_session_characterized [c3cancelled] "tokF" 100
    (fun _ => some "u") c3cancelled (by decide)).2.2.1 "u"
  exact h.mpr ⟨by decide, by decide, rfl⟩

/-! ### Claim C4 -/

/-- C4: when the gateway session reports paid but its correlation metadata
differs from the local token, the success endpoint answers with the mismatch
error and the store (every field of every row) is unchanged. -/
theorem payment_success_token_mismatch (db : List PaymentLink) (tok : String)
    (s : GatewaySession) (pl : PaymentLink)
    (hfind : findByToken db tok = some pl)
    (hpaid : s.payment_status = "paid")
    (hmm : s.payment_token ≠ some tok) :
    payment_success db tok (some s) = (SuccessResult.tokenMismatch, db) := by
  simp [payment_success, hfind, hpaid, hmm]

/-- Witness for the mismatch theorem at a concrete store. -/
theorem payment_success_token_mismatch_witness :
    payment_success [c4record] "tokA"
        (some { payment_status := "paid", payment_token := some "other" }) =
      (SuccessResult.tokenMismatch, [c4record]) :=
  payment_success_token_mismatch [c4record] "tokA"
    { payment_status := "paid", payment_token := some "other" } c4record
    (by decide) rfl (by decide)

/-! ### Claim C5 -/

/-- C5 counterexample: cancellation overwrites a paid record with cancelled,
so the terminal states are not preserved by every operation. -/
theorem cancel_overwrites_paid :
    c5paid.status = Status.paid ∧
    (payment_cancelled [c5paid] "tokP").2 =
      [{ c5paid with status := Status.cancelled }] := by
  decide

/-- C5 (amended): exact characterization of the status rewrites each operation
can apply to a stored record, every other field being preserved: creation and
checkout never rewrite a stored row; the pay page writes expired over any
status that is neither paid nor expired once the window has elapsed; the
success handler writes paid over any status that is not already paid (a no-op
re-observation when it is); cancellation writes cancelled unconditionally; the
sweep writes expired over stale pending rows only. -/
theorem status_change_characterized (op : Op) (db : List PaymentLink) (i : Nat)
    (r : PaymentLink) (h : db[i]? = some r) :
    ∃ r2, (stepStore op db)[i]? = some r2 ∧ sameCore r r2 ∧
      (r2.status = r.status ∨ allowedStatusChange op r r2) := by
  cases op with
  | createOp oid em amount tok now =>
    have hstep : (create_payment_link db oid em amount tok now).2 = db ∨
        (create_payment_link db oid em amount tok now).2 =
          db ++ [mkPaymentLink (nextId db) tok oid em amount now] := by
      unfold create_payment_link
      split
      · split
        · left; rfl
        · split
          · left; rfl
          · right; rfl
      · right; rfl
    show ∃ r2, ((create_payment_link db oid em amount tok now).2)[i]? = some r2 ∧ _
    rcases hstep with he | he
    · rw [he, h]
      exact ⟨r, rfl, sameCore_self r, Or.inl rfl⟩
    · rw [he, List.getElem?_append_left (getElem?_lt_length h), h]
      exact ⟨r, rfl, sameCore_self r, Or.inl rfl⟩
  | page tok now =>
    show ∃ r2, ((pay_page db tok now).2)[i]? = some r2 ∧ _
    unfold pay_page
    cases hf : findByToken db tok with
    | none => exact ⟨r, by simpa using h, sameCore_self r, Or.inl rfl⟩
    | some pl =>
      by_cases hc : now > pl.created_at + EXPIRATION_WINDOW ∧
          pl.status ≠ Status.paid ∧ pl.status ≠ Status.expired
      · rcases setStatus_case db tok Status.expired i r pl h hf with ⟨r2, h1, h2, h3⟩
        refine ⟨r2, by simpa [hc] using h1, h2, ?_⟩
        rcases h3 with h3 | ⟨h3, rfl⟩
        · exact Or.inl h3
        · exact Or.inr ⟨h3, hc.2.1, hc.2.2, hc.1⟩
      · refine ⟨r, ?_, sameCore_self r, Or.inl rfl⟩
        by_cases hp : pl.status = Status.paid
        · simpa [hp] using h
        · by_cases hx : pl.status = Status.expired
          · simpa [hp, hx] using h
          · have hA : ¬ now > pl.created_at + EXPIRATION_WINDOW :=
              fun ha => hc ⟨ha, hp, hx⟩
            simpa [hA, hp, hx] using h
  | checkout tok now gateway =>
    show ∃ r2, ((create_checkout_session db tok now gateway).2)[i]? = some r2 ∧ _
    rw [checkout_store_eq, h]
    exact ⟨r, rfl, sameCore_self r, Or.inl rfl⟩
  | success tok retrieved =>
    show ∃ r2, ((payment_success db tok retrieved).2)[i]? = some r2 ∧ _
    unfold payment_success
    cases hf : findByToken db tok with
    | none => exact ⟨r, by simpa using h, sameCore_self r, Or.inl rfl⟩
    | some pl =>
      cases retrieved with
      | none => exact ⟨r, by simpa using h, sameCore_self r, Or.inl rfl⟩
      | some s =>
        by_cases h1 : s.payment_status ≠ "paid"
        · exact ⟨r, by simpa [h1] using h, sameCore_self r, Or.inl rfl⟩
        · by_cases h2 : s.payment_token ≠ some tok
          · exact ⟨r, by simpa [h1, h2] using h, sameCore_self r, Or.inl rfl⟩
          · by_cases h3 : pl.status ≠ Status.paid
            · rcases setStatus_case db tok Status.paid i r pl h hf with ⟨r2, g1, g2, g3⟩
              refine ⟨r2, by simpa [h1, h2, h3] using g1, g2, ?_⟩
              rcases g3 with g3 | ⟨g3, rfl⟩
              · exact Or.inl g3
              · exact Or.inr ⟨g3, h3⟩
            · exact ⟨r, by simpa [h1, h2, h3] using h, sameCore_self r, Or.inl rfl⟩
  | cancel tok =>
    show ∃ r2, ((payment_cancelled db tok).2)[i]? = some r2 ∧ _
    unfold payment_cancelled
    cases hf : findByToken db tok with
    | none => exact ⟨r, by simpa using h, sameCore_self r, Or.inl rfl⟩
    | some pl =>
      rcases setStatus_case db tok Status.cancelled i r pl h hf with ⟨r2, h1, h2, h3⟩
      refine ⟨r2, by simpa using h1, h2, ?_⟩
      rcases h3 with h3 | ⟨h3, _⟩
      · exact Or.inl h3
      · exact Or.inr h3
  | sweep now =>
    show ∃ r2, ((cleanup_expired db now).2)[i]? = some r2 ∧ _
    unfold cleanup_expired
    rw [List.getElem?_map, h]
    by_cases hs : stalePred now r = true
    · refine ⟨{ r with status := Status.expired }, by simp [hs], sameCore_set r _, Or.inr ?_⟩
      unfold stalePred at hs
      simp only [Bool.and_eq_true, decide_eq_true_eq] at hs
      exact ⟨rfl, hs.2, hs.1⟩
    · exact ⟨r, by simp [hs], sameCore_self r, Or.inl rfl⟩

/-- Witness for the status-change characterization at a concrete cancel. -/
theorem status_change_characterized_witness :
    ∃ r2, (stepStore (Op.cancel "tokW") [c5wit])[0]? = some r2 ∧ sameCore c5wit r2 ∧
      (r2.status = c5wit.status ∨ allowedStatusChange (Op.cancel "tokW") c5wit r2) :=
  status_change_characterized (Op.cancel "tokW") [c5wit] 0 c5wit rfl

/-! ### Claim C6 -/

unseal Rat.mul Rat.add Rat.sub Rat.inv in
/-- C6: for the amount 19.99 the checkout endpoint sends 1998 minor units,
because the stored binary64 amount times 100 truncates under Python int,
whereas rounding the exact decimal product gives 1999. -/
theorem unit_amount_precision_loss :
    (buildSessionRequest (mkPaymentLink 1 "t" "A1" "x@y.com" (1999 / 100) 0)).unit_amount
        = 1998 ∧
    rne ((1999 / 100 : Rat) * 100) = 1999 := by
  refine ⟨by decide, by decide⟩

/-! ### Claim C7 -/

/-- C7 counterexample: the lazy write-back also fires for a cancelled record
past its window, not only for stored-pending ones. -/
theorem pay_page_expires_cancelled :
    c7cancelledOld.status = Status.cancelled ∧
    (pay_page [c7cancelledOld] "tokD" 301).2 =
      [{ c7cancelledOld with status := Status.expired }] := by
  decide

/-- C7 (amended): the write-back fires exactly when the window has elapsed and
the stored status is neither paid nor expired (pending or cancelled), giving
the expired view; otherwise the store is untouched and the view follows the
stored status: paid gives the already-paid view, expired the expired view, and
anything else the payment form with amount, order id, email and token. -/
theorem pay_page_characterized (db : List PaymentLink) (tok : String) (now : Int)
    (pl : PaymentLink) (h : findByToken db tok = some pl) :
    (now > pl.created_at + EXPIRATION_WINDOW ∧ pl.status ≠ Status.paid ∧
        pl.status ≠ Status.expired →
      pay_page db tok now =
        (PageView.expiredView, setStatusByToken db tok Status.expired)) ∧
    (¬ (now > pl.created_at + EXPIRATION_WINDOW ∧ pl.status ≠ Status.paid ∧
        pl.status ≠ Status.expired) →
      (pay_page db tok now).2 = db ∧
      (pay_page db tok now).1 =
        (if pl.status = Status.paid then PageView.paidView
         else if pl.status = Status.expired then PageView.expiredView
         else PageView.formView pl.amount pl.order_id pl.email pl.token)) := by
  constructor
  · intro hc
    simp [pay_page, h, hc]
  · intro hc
    by_cases hp : pl.status = Status.paid
    · constructor <;> simp [pay_page, h, hp]
    · by_cases hx : pl.status = Status.expired
      · constructor <;> simp [pay_page, h, hp, hx]
      · have hA : ¬ now > pl.created_at + EXPIRATION_WINDOW :=
          fun ha => hc ⟨ha, hp, hx⟩
        constructor <;> simp [pay_page, h, hp, hx, hA]

/-- Witness for the pay-page characterization: a fresh pending record renders
the payment form and the store is unchanged. -/
theorem pay_page_characterized_witness :
    (pay_page [c7fresh] "tokG" 100).2 = [c7fresh] ∧
    (pay_page [c7fresh] "tokG" 100).1 =
      PageView.formView c7fresh.amount c7fresh.order_id c7fresh.email c7fresh.token := by
  have h := (pay_page_characterized [c7fresh] "tokG" 100 c7fresh (by decide)).2
    (by decide)
  exact ⟨h.1, h.2.trans (by decide)⟩

/-! ### Claim C8 -/

/-- C8: the sweep transitions to expired exactly the rows with status pending
created strictly before now minus the window, returns their count, leaves a
row created now untouched, and an immediately repeated run transitions zero
further rows and changes nothing. -/
theorem cleanup_expired_correct (db : List PaymentLink) (now : Int) :
    ((cleanup_expired db now).1 =
      (db.filter (fun r =>
        decide (r.status = Status.pending) &&
          decide (r.created_at < now - EXPIRATION_WINDOW))).length) ∧
    (∀ (i : Nat) (r : PaymentLink), db[i]? = some r → (cleanup_expired db now).2[i]? =
      some (if r.status = Status.pending ∧ r.created_at < now - EXPIRATION_WINDOW
            then { r with status := Status.expired } else r)) ∧
    (∀ (i : Nat) (r : PaymentLink), db[i]? = some r → r.created_at = now →
      (cleanup_expired db now).2[i]? = some r) ∧
    (cleanup_expired (cleanup_expired db now).2 now = (0, (cleanup_expired db now).2)) := by
  have hpred : ∀ r : PaymentLink,
      stalePred now r =
        (decide (r.status = Status.pending) && decide (r.created_at < now - EXPIRATION_WINDOW)) := by
    intro r
    unfold stalePred
    by_cases h1 : r.created_at < now - EXPIRATION_WINDOW <;>
      by_cases h2 : r.status = Status.pending <;> simp [h1, h2]
  have hitem : ∀ (i : Nat) (r : PaymentLink), db[i]? = some r → (cleanup_expired db now).2[i]? =
      some (if r.status = Status.pending ∧ r.created_at < now - EXPIRATION_WINDOW
            then { r with status := Status.expired } else r) := by
    intro i r h
    unfold cleanup_expired
    rw [List.getElem?_map, h]
    by_cases h1 : r.created_at < now - EXPIRATION_WINDOW <;>
      by_cases h2 : r.status = Status.pending <;>
        simp [stalePred, h1, h2]
  have hfix : ∀ r : PaymentLink,
      stalePred now (if stalePred now r then { r with status := Status.expired } else r)
        = false := by
    intro r
    by_cases hs : stalePred now r = true
    · rw [if_pos hs]
      unfold stalePred
      simp
    · rw [if_neg hs]
      exact Bool.eq_false_iff.mpr hs
  refine ⟨?_, hitem, ?_, ?_⟩
  · show (db.filter (stalePred now)).length = _
    rw [List.filter_congr (fun r _ => hpred r)]
  · intro i r h hnow
    rw [hitem i r h, if_neg]
    rintro ⟨-, h2⟩
    rw [hnow] at h2
    simp only [EXPIRATION_WINDOW] at h2
    omega
  · have hsnd : (cleanup_expired db now).2 =
        db.map (fun r => if stalePred now r then { r with status := Status.expired } else r) :=
      rfl
    have hflt : List.filter (stalePred now)
        (db.map (fun r => if stalePred now r then { r with status := Status.expired } else r)) =
          [] := by
      rw [List.filter_eq_nil_iff]
      intro a ha
      rcases List.mem_map.mp ha with ⟨r, -, rfl⟩
      simp [hfix r]
    have hmap :
        (db.map (fun r => if stalePred now r then { r with status := Status.expired } else r)).map
            (fun r => if stalePred now r then { r with status := Status.expired } else r) =
          db.map (fun r => if stalePred now r then { r with status := Status.expired } else r) := by
      rw [List.map_map]
      apply List.map_congr_left
      intro r _
      simp only [Function.comp_apply]
      have h0 := hfix r
      generalize (if stalePred now r = true then { r with status := Status.expired } else r) = x
        at h0 ⊢
      rw [h0]
      simp
    show cleanup_expired (cleanup_expired db now).2 now = _
    rw [hsnd]
    unfold cleanup_expired
    rw [hflt, hmap]
    rfl

/-- Witness for the sweep theorem: a pending record six minutes old is
transitioned by a sweep at time 360. -/
theorem cleanup_expired_correct_witness :
    (cleanup_expired [c8stale] 360).2[0]? =
      some (if c8stale.status = Status.pending ∧
              c8stale.created_at < 360 - EXPIRATION_WINDOW
            then { c8stale with status := Status.expired } else c8stale) :=
  (cleanup_expired_correct [c8stale] 360).2.1 0 c8stale rfl

/-! ### Claim C9 -/

/-- C9: the checkout endpoint never mutates the store: whatever the gateway
outcome, the store after the call is the store before it, every field of every
row included. -/
theorem create_checkout_session_frame (db : List PaymentLink) (tok : String)
    (now : Int) (gateway : SessionRequest → Option String) :
    (create_checkout_session db tok now gateway).2 = db :=
  checkout_store_eq db tok now gateway

/-! ### Claim C10 -/

/-- C10: a row is in the filtered listing exactly when it is in the store, a
supplied nonempty order-id or email filter occurs as a substring (SQL LIKE
with wildcards on both sides, ASCII-case-insensitively), and a supplied
nonempty status filter equals the stored status string exactly. -/
theorem filter_like_characterized (db : List PaymentLink) (oidF emF stF : Option String)
    (r : PaymentLink) :
    r ∈ filterPayments db oidF emF stF ↔
      (r ∈ db ∧
       (∀ s, oidF = some s → s ≠ "" → likeMatch s r.order_id = true) ∧
       (∀ s, emF = some s → s ≠ "" → likeMatch s r.email = true) ∧
       (∀ s, stF = some s → s ≠ "" → statusStr r.status = s)) := by
  unfold filterPayments
  rw [stageFilter_mem, stageFilter_mem, stageFilter_mem]
  simp only [decide_eq_true_eq]
  tauto

/-- Witness for the filter characterization: the order-id filter "A" admits
the record with order id "BA" by substring match. -/
theorem filter_like_characterized_witness :
    c10recBA ∈ filterPayments [c10recA1, c10recBA, c10recC] (some "A") none none :=
  (filter_like_characterized [c10recA1, c10recBA, c10recC] (some "A") none none
      c10recBA).mpr
    ⟨by decide,
     fun s hs h0 => by cases Option.some.inj hs; decide,
     fun s hs => Option.noConfusion hs,
     fun s hs => Option.noConfusion hs⟩

end Paylink
